import Mathlib

/-!
Verification of the resilient multi-site scraping subsystem
(`src/scrapers/` : `base_scraper.py`, `oddsportal_scraper.py`,
`physioroom_scraper.py`, `fbref_scraper.py`, `whoscored_scraper.py`).

The Python code is shallowly embedded as executable Lean functions.
Modelling conventions:
  * Python floats are modelled as exact rationals (`ℚ`); all confidence
    values and payload constants in the code are short decimal literals.
  * A Python dict payload is a `List (String × Val)` in insertion order.
  * The network/browser layer is an oracle: each `_make_request` call site
    is an environment field of type `FetchOutcome α`, where `α` is what the
    subsequent extraction reads from the page.  `_make_request` (wrapped in
    tenacity `retry`) either raises after its attempts or returns a live
    page, never `None`, so the defensive `if not page:` branches in the
    scrapers are unreachable and are not modelled.
  * Raising an exception is modelled with `Except` / explicit result
    fields; clocks (`time.time()` / `datetime.now()`) are a `ℚ` input.
-/

/-- One injured-player entry built by `PhysioRoomScraper.scrape_team_injuries`
(the `position` field is always `None` in the code and is omitted). -/
structure Player where
  name : String
  issue : String
  severity : ℕ
  expected : Option String
deriving Repr, DecidableEq

/-- A scalar or nested value stored in a scraped payload dict. -/
inductive Val where
  | num (q : ℚ)
  | str (s : String)
  | vbool (b : Bool)
  | players (l : List Player)
  | strs (l : List String)
deriving Repr, DecidableEq

/-- A Python dict payload, in insertion order. -/
abbrev Payload := List (String × Val)

/-- `payload.get(k, d)` — dict lookup with default. -/
def Payload.getD (p : Payload) (k : String) (d : Val) : Val :=
  (p.lookup k).getD d

/-- Python truthiness of a dict: an empty dict is falsy.  The scrapers
guard cache hits and fallback data with `if cached_data:` etc., so an
empty payload is treated as absent. -/
def truthyPayload : Option Payload → Option Payload
  | some p => if p = [] then none else some p
  | none => none

/-- `ScrapedData` dataclass from `base_scraper.py`. -/
structure ScrapedData where
  source : String
  data_type : String
  fixture_id : Option ℤ
  team_id : Option ℤ
  data : Payload
  scraped_at : ℚ
  confidence : ℚ
deriving Repr, DecidableEq

/-- One cache file `{cached_at: ..., content: ...}`.  `content = none`
models a file whose JSON fails to deserialize or lacks the `content`
key (both are caught and treated as a miss by the accessors). -/
structure CacheFile where
  cached_at : ℚ
  content : Option Payload
deriving Repr, DecidableEq

/-- `PlaywrightScraper._get_ttl_seconds`. -/
def get_ttl_seconds (data_type : String) : ℕ :=
  if data_type = "odds" then 600
  else if data_type = "injuries" then 3600
  else if data_type = "weather" then 10800
  else if data_type = "advanced_stats" then 86400
  else if data_type = "match_stats" then 86400
  else if data_type = "team_form" then 86400
  else 1800

/-- `PlaywrightScraper._get_cached_data_ttl`: TTL-aware read of the cache
file; valid only while `now - cached_at < ttl`. -/
def get_cached_data_ttl (file : Option CacheFile) (now : ℚ) (ttl : ℕ) :
    Option Payload :=
  match file with
  | none => none
  | some f =>
    match f.content with
    | none => none
    | some c => if now - f.cached_at < (ttl : ℚ) then some c else none

/-- Body of `PlaywrightScraper._get_cached_data` (before memoization):
read of the cache file with the fixed default 30-minute bound. -/
def get_cached_data_raw (file : Option CacheFile) (now : ℚ) : Option Payload :=
  match file with
  | none => none
  | some f =>
    match f.content with
    | none => none
    | some c => if now - f.cached_at < 1800 then some c else none

/-- The `functools.lru_cache(maxsize=1000)` memo attached to
`_get_cached_data`, most recently used entry first. -/
structure LruCache where
  entries : List (String × Option Payload)
deriving Repr, DecidableEq

/-- `PlaywrightScraper._get_cached_data` as seen by callers: the
`lru_cache(maxsize=1000)`-memoized file read.  A memoized key returns its
memoized value without consulting the file or the clock; a new key reads
the file, memoizes the result, and evicts the least recently used entry
when the memo would exceed 1000 entries. -/
def get_cached_data (st : LruCache) (k : String) (file : Option CacheFile)
    (now : ℚ) : Option Payload × LruCache :=
  match st.entries.lookup k with
  | some v => (v, ⟨(k, v) :: st.entries.eraseP (fun e => e.1 == k)⟩)
  | none =>
    let v := get_cached_data_raw file now
    let es := (k, v) :: st.entries
    (v, ⟨if es.length > 1000 then es.dropLast else es⟩)

/-- A sequence of `_get_cached_data` calls for one key, each against a
possibly different on-disk file state and clock reading. -/
def run_cached_reads (st : LruCache) (k : String) :
    List (Option CacheFile × ℚ) → List (Option Payload) × LruCache
  | [] => ([], st)
  | (f, t) :: rest =>
    let r := get_cached_data st k f t
    let rs := run_cached_reads r.2 k rest
    (r.1 :: rs.1, rs.2)

/-- `PlaywrightScraper._save_to_cache`.  The body has no exception
handling: when the file write fails (`writeOk = false`) the exception
propagates to the caller; otherwise the key's file is overwritten with
the current timestamp. -/
def save_to_cache (writeOk : Bool) (key : String) (d : Payload) (now : ℚ) :
    Except Unit (String × CacheFile) :=
  if writeOk then .ok (key, ⟨now, some d⟩) else .error ()

/-- `PlaywrightScraper._respect_rate_limit` over an idealized monotone
clock: given the site's `min_delay`, the recorded last-request time, the
current time and the drawn jitter (`random.uniform(5, 15)`), returns the
time at which the request proceeds and the new `last_request_time`. -/
def respect_rate_limit (min_delay last now jitter : ℚ) : ℚ × ℚ :=
  if now - last < min_delay then
    let start := now + (min_delay - (now - last)) + jitter
    (start, start)
  else (now, now)

/-- `min_delay` set in `PlaywrightScraper.__init__` (45 s), inherited by
`FBrefScraper`, `OddsPortalScraper` and `PhysioRoomScraper`. -/
def default_min_delay : ℚ := 45

/-- `FBrefScraper` inherits the base 45 s delay. -/
def fbref_min_delay : ℚ := default_min_delay

/-- `OddsPortalScraper` inherits the base 45 s delay. -/
def oddsportal_min_delay : ℚ := default_min_delay

/-- `PhysioRoomScraper` inherits the base 45 s delay. -/
def physioroom_min_delay : ℚ := default_min_delay

/-- `WhoScoredScraper.__init__` overrides `min_delay` to 90 s. -/
def whoscored_min_delay : ℚ := 90

/-- Outcome of one HTTP attempt made by the persistence layer. -/
inductive HttpOutcome where
  | status (code : ℕ)
  | transportError
deriving Repr, DecidableEq

/-- How `persist_scraped_data` finishes. -/
inductive PersistOutcome where
  | ok
  | authFail
  | noToken
  | raisedRetryError
deriving Repr, DecidableEq

/-- A dead-letter cache entry written by `save_to_database` on failure. -/
structure DeadLetter where
  key : String
  data : ScrapedData
  error : String
  retry_after : ℚ
deriving Repr, DecidableEq

/-- Observable result of one `persist_scraped_data` call. -/
structure PersistResult where
  outcome : PersistOutcome
  attempts : ℕ
  waits : List ℚ
  deadLetters : List DeadLetter
deriving Repr, DecidableEq

/-- tenacity `wait_exponential(multiplier, min, max)` evaluated after the
failure of attempt number `attempt` (1-based):
`clamp(multiplier * 2 ^ attempt, min, max)`. -/
def wait_exponential (multiplier minW maxW : ℚ) (attempt : ℕ) : ℚ :=
  max (max 0 minW) (min (multiplier * 2 ^ attempt) maxW)

/-- The tenacity-wrapped attempt loop of
`PlaywrightScraper.persist_scraped_data`:
`stop_after_attempt(3)`, `wait_exponential(multiplier=2, min=5, max=60)`.
HTTP 201 returns `True`; HTTP 401 returns `False` (no exception, so no
retry); any other status or transport error raises and is retried; the
third consecutive failure raises out of the call.  `resp n` is the
outcome of attempt `n` (0-based). -/
def persist_attempts (resp : ℕ → HttpOutcome) :
    PersistOutcome × ℕ × List ℚ :=
  match resp 0 with
  | .status 201 => (.ok, 1, [])
  | .status 401 => (.authFail, 1, [])
  | _ =>
    let w1 := wait_exponential 2 5 60 1
    match resp 1 with
    | .status 201 => (.ok, 2, [w1])
    | .status 401 => (.authFail, 2, [w1])
    | _ =>
      let w2 := wait_exponential 2 5 60 2
      match resp 2 with
      | .status 201 => (.ok, 3, [w1, w2])
      | .status 401 => (.authFail, 3, [w1, w2])
      | _ => (.raisedRetryError, 3, [w1, w2])

/-- `PlaywrightScraper.persist_scraped_data`.  With no bearer token it
returns `False` without any HTTP attempt.  It never writes a dead-letter
entry on any path: exhausted retries surface as a raised `RetryError`. -/
def persist_scraped_data (tokenPresent : Bool) (resp : ℕ → HttpOutcome) :
    PersistResult :=
  if tokenPresent then
    let r := persist_attempts resp
    { outcome := r.1, attempts := r.2.1, waits := r.2.2, deadLetters := [] }
  else
    { outcome := .noToken, attempts := 0, waits := [], deadLetters := [] }

/-- Python `data.fixture_id or data.team_id` rendered into the dead-letter
key (`0` and `None` are falsy; `None` prints as `"None"`). -/
def py_or_id (a b : Option ℤ) : String :=
  match a with
  | some n =>
    if n = 0 then
      match b with
      | some m => toString m
      | none => "None"
    else toString n
  | none =>
    match b with
    | some m => toString m
    | none => "None"

/-- The dead-letter entry written by `save_to_database` on failure:
key `failed_{source}_{fixture_id or team_id}_{int(time.time())}`, tagged
with the stringified error and `retry_after = time.time() + 300`. -/
def dead_letter_for (d : ScrapedData) (err : String) (now : ℚ) : DeadLetter :=
  { key := "failed_" ++ d.source ++ "_" ++ py_or_id d.fixture_id d.team_id
      ++ "_" ++ toString ⌊now⌋
    data := d
    error := err
    retry_after := now + 300 }

/-- The dead-letter write inside `save_to_database`'s `except` handler:
it goes through `_save_to_cache`, which has no exception handling of its
own (cf. `save_to_cache`), so when the file write fails
(`writeOk = false`) the exception propagates. -/
def write_dead_letter (writeOk : Bool) (d : ScrapedData) (err : String)
    (now : ℚ) : Except Unit DeadLetter :=
  if writeOk then .ok (dead_letter_for d err now) else .error ()

/-- `PlaywrightScraper.save_to_database` (the compat shim): a single
`requests.post`; `raise_for_status` raises exactly for statuses 400-599,
and any raised error (HTTP or transport) is caught by the handler, which
writes the dead-letter entry through `_save_to_cache`.  When that write
itself fails, its exception propagates out of `save_to_database` and no
dead letter is written.  Returns the dead-letter entries written, or the
escaped exception. -/
def save_to_database (d : ScrapedData) (resp : HttpOutcome) (err : String)
    (now : ℚ) (writeOk : Bool) : Except Unit (List DeadLetter) :=
  match resp with
  | .status code =>
    if 400 ≤ code ∧ code < 600 then
      match write_dead_letter writeOk d err now with
      | .ok dl => .ok [dl]
      | .error e => .error e
    else .ok []
  | .transportError =>
    match write_dead_letter writeOk d err now with
    | .ok dl => .ok [dl]
    | .error e => .error e

/-- Outcome of one `_make_request` call site: the tenacity-wrapped fetch
either raises (all attempts failed) or yields a page, summarized by
whatever the following extraction code reads from it. -/
inductive FetchOutcome (α : Type) where
  | raised
  | page (content : α)
deriving Repr, DecidableEq

/-- Observable result of one public `scrape_*` call: whether an exception
escaped, the returned record, how many browser pages the operation opened
and closed, and the cache files it wrote. -/
structure OpResult where
  raised : Bool
  record : Option ScrapedData
  pagesOpened : ℕ
  pagesClosed : ℕ
  cacheWrites : List (String × CacheFile)
deriving Repr, DecidableEq

/-- Confidence of the record returned by an operation, if any. -/
def OpResult.conf (r : OpResult) : Option ℚ :=
  r.record.map ScrapedData.confidence

/-- Python round-half-to-even of `q * 1000`, as an integer. -/
def round_half_even (q : ℚ) : ℤ :=
  let f := ⌊q⌋
  let frac := q - f
  if frac < 1/2 then f
  else if frac > 1/2 then f + 1
  else if f % 2 = 0 then f else f + 1

/-- Python `round(q, 3)` idealized over exact rationals. -/
def py_round3 (q : ℚ) : ℚ := (round_half_even (q * 1000) : ℚ) / 1000

namespace OddsPortal

/-- Environment of one `OddsPortalScraper.scrape_fixture_odds` call:
clock, the cache file for `oddsportal_odds_{fixture_id}`, the two fetch
oracles (the search page summarized by the match link found by the link
scan, the match page summarized by the `\d+.\d{2}` numbers found in its
content), and whether the cache write succeeds. -/
structure Env where
  now : ℚ
  cacheFile : Option CacheFile
  fetchSearch : FetchOutcome (Option String)
  fetchMatch : FetchOutcome (List ℚ)
  saveOk : Bool
deriving Repr, DecidableEq

/-- `OddsPortalScraper._fallback_odds_data`: the hard-coded terminal
fallback record. -/
def fallback_odds_data (fixture_id : ℤ) (now : ℚ) : ScrapedData :=
  { source := "oddsportal"
    data_type := "odds"
    fixture_id := some fixture_id
    team_id := none
    data :=
      [("home_open", .num 2.00), ("draw_open", .num 3.20),
       ("away_open", .num 3.50), ("home_current", .num 1.95),
       ("draw_current", .num 3.20), ("away_current", .num 3.65),
       ("home_drift", .num (-0.05)), ("draw_drift", .num 0.00),
       ("away_drift", .num 0.15), ("drift_velocity", .num 0.067)]
    scraped_at := now
    confidence := 0.5 }

/-- `OddsPortalScraper.scrape_fixture_odds`.  Cache check with the odds
TTL, then two fetches; every exception is caught and falls back to
`fallback_odds_data`; the `finally` block closes only the first page
(`page`), never the second (`odds_page`). -/
def scrape_fixture_odds (e : Env) (fixture_id : ℤ) : OpResult :=
  match truthyPayload
      (get_cached_data_ttl e.cacheFile e.now (get_ttl_seconds "odds")) with
  | some c =>
    { raised := false
      record := some
        { source := "oddsportal", data_type := "odds"
          fixture_id := some fixture_id, team_id := none
          data := c, scraped_at := e.now, confidence := 0.8 }
      pagesOpened := 0, pagesClosed := 0, cacheWrites := [] }
  | none =>
    match e.fetchSearch with
    | .raised =>
      { raised := false, record := some (fallback_odds_data fixture_id e.now)
        pagesOpened := 0, pagesClosed := 0, cacheWrites := [] }
    | .page matchUrl =>
      match matchUrl with
      | none =>
        { raised := false
          record := some (fallback_odds_data fixture_id e.now)
          pagesOpened := 1, pagesClosed := 1, cacheWrites := [] }
      | some _ =>
        match e.fetchMatch with
        | .raised =>
          { raised := false
            record := some (fallback_odds_data fixture_id e.now)
            pagesOpened := 1, pagesClosed := 1, cacheWrites := [] }
        | .page nums =>
          let openPart : Payload :=
            if 3 ≤ nums.length then
              [("home_open", .num (nums.getD 0 0)),
               ("draw_open", .num (nums.getD 1 0)),
               ("away_open", .num (nums.getD 2 0))]
            else []
          let home_cur :=
            if 6 ≤ nums.length then nums.getD 3 0
            else (if 3 ≤ nums.length then nums.getD 0 0 else 2.00) * 0.97
          let draw_cur :=
            if 6 ≤ nums.length then nums.getD 4 0
            else (if 3 ≤ nums.length then nums.getD 1 0 else 3.20) * 1.00
          let away_cur :=
            if 6 ≤ nums.length then nums.getD 5 0
            else (if 3 ≤ nums.length then nums.getD 2 0 else 3.50) * 1.03
          let home_drift := py_round3
            (home_cur - (if 3 ≤ nums.length then nums.getD 0 0 else home_cur))
          let draw_drift := py_round3
            (draw_cur - (if 3 ≤ nums.length then nums.getD 1 0 else draw_cur))
          let away_drift := py_round3
            (away_cur - (if 3 ≤ nums.length then nums.getD 2 0 else away_cur))
          let dv := py_round3
            ((abs home_drift + abs draw_drift + abs away_drift) / 3)
          let data : Payload := openPart ++
            [("home_current", .num home_cur), ("draw_current", .num draw_cur),
             ("away_current", .num away_cur), ("home_drift", .num home_drift),
             ("draw_drift", .num draw_drift), ("away_drift", .num away_drift),
             ("drift_velocity", .num dv)]
          match save_to_cache e.saveOk
              ("oddsportal_odds_" ++ toString fixture_id) data e.now with
          | .error _ =>
            { raised := false
              record := some (fallback_odds_data fixture_id e.now)
              pagesOpened := 2, pagesClosed := 1, cacheWrites := [] }
          | .ok w =>
            { raised := false
              record := some
                { source := "oddsportal", data_type := "odds"
                  fixture_id := some fixture_id, team_id := none
                  data := data, scraped_at := e.now, confidence := 0.9 }
              pagesOpened := 2, pagesClosed := 1, cacheWrites := [w] }

end OddsPortal

/-- `pat` is a prefix of `s`, over character lists. -/
def starts_with_chars (pat s : List Char) : Bool :=
  match pat, s with
  | [], _ => true
  | _ :: _, [] => false
  | p :: ps, c :: cs => p == c && starts_with_chars ps cs

/-- `pat` occurs somewhere in `s`, over character lists. -/
def occurs_in_chars (pat : List Char) : List Char → Bool
  | [] => pat.isEmpty
  | c :: cs => starts_with_chars pat (c :: cs) || occurs_in_chars pat cs

/-- Python `pat in s` for strings: `pat` occurs as a substring of `s`. -/
def occurs_in (pat s : String) : Bool :=
  occurs_in_chars pat.data s.data

/-- `any(k in low for k in ks)`. -/
def any_keyword (ks : List String) (low : String) : Bool :=
  ks.any (fun k => occurs_in k low)

/-- Python `str.lower()` restricted to ASCII, which covers every keyword
the injury heuristic compares against. -/
def lower_char (c : Char) : Char :=
  if 65 ≤ c.toNat ∧ c.toNat ≤ 90 then Char.ofNat (c.toNat + 32) else c

/-- Python `str.lower()` over a whole string. -/
def py_lower (s : String) : String := ⟨s.data.map lower_char⟩

/-- Whitespace recognized by Python `str.strip()` (the forms that occur
in scraped inner text). -/
def is_space_char (c : Char) : Bool :=
  c == ' ' || c == '\t' || c == '\n' || c == '\r'

/-- Python `str.strip()` over a character list. -/
def strip_chars (l : List Char) : List Char :=
  ((l.dropWhile is_space_char).reverse.dropWhile is_space_char).reverse

/-- Python `str.split(sep)` for a one-character separator, over a
character list; always returns at least one piece. -/
def split_on_char (sep : Char) : List Char → List (List Char)
  | [] => [[]]
  | c :: cs =>
    let r := split_on_char sep cs
    if c == sep then [] :: r
    else
      match r with
      | [] => [[c]]
      | h :: t => (c :: h) :: t

namespace PhysioRoom

/-- Keyword list guarding the injury-line heuristic in
`PhysioRoomScraper.scrape_team_injuries`. -/
def injury_keywords : List String :=
  ["ankle", "hamstring", "knee", "groin", "calf", "shoulder", "back",
   "muscle", "fracture"]

/-- The per-item heuristic of `scrape_team_injuries`: an element's text
becomes a player entry when it mentions an injury keyword; severity 4 for
acl/fracture/surgery/rupture, 3 for strain/tear/hamstring/ankle, else 2;
the expected-return fragment is the last 64 characters when the text
mentions return/expected. -/
def parse_injury_item (t : String) : Option Player :=
  let low := py_lower t
  if any_keyword injury_keywords low then
    let name : String :=
      ⟨(strip_chars ((split_on_char '-' t.data).headD t.data)).take 64⟩
    let severity : ℕ :=
      if any_keyword ["acl", "fracture", "surgery", "rupture"] low then 4
      else if any_keyword ["strain", "tear", "hamstring", "ankle"] low then 3
      else 2
    let expected : Option String :=
      if occurs_in "return" low || occurs_in "expected" low then
        some ⟨t.data.drop (t.data.length - 64)⟩
      else none
    some { name := name, issue := t, severity := severity, expected := expected }
  else none

/-- Environment of one `PhysioRoomScraper.scrape_team_injuries` call:
clock, the cache file for `physioroom_inj_{team_id}`, the search page
summarized by the team link the two scans produce, the detail page
summarized by the inner texts of its `li`/`tr` items, and whether the
cache write succeeds. -/
structure Env where
  now : ℚ
  cacheFile : Option CacheFile
  fetchSearch : FetchOutcome (Option String)
  fetchDetail : FetchOutcome (List String)
  saveOk : Bool
deriving Repr, DecidableEq

/-- `PhysioRoomScraper._fallback_injuries`: the hard-coded terminal
fallback record. -/
def fallback_injuries (team_id : ℤ) (now : ℚ) : ScrapedData :=
  { source := "physioroom"
    data_type := "injuries"
    fixture_id := none
    team_id := some team_id
    data := [("players", .players []), ("count", .num 0),
             ("severity_sum", .num 0)]
    scraped_at := now
    confidence := 0.4 }

/-- The payload built from the parsed detail-page items. -/
def injuries_payload (team_name : String) (players : List Player) : Payload :=
  [("team_name", .str team_name),
   ("players", .players players),
   ("count", .num (players.length : ℚ)),
   ("severity_sum", .num ((players.map Player.severity).sum : ℚ))]

/-- `PhysioRoomScraper.scrape_team_injuries`.  Cache check with the
injuries TTL, then two fetches and the keyword heuristic; every exception
is caught and falls back to `fallback_injuries`; confidence is 0.9 when
players were found and 0.6 otherwise; the `finally` block closes only the
first page (`page`), never the second (`detail`). -/
def scrape_team_injuries (e : Env) (team_id : ℤ) (team_name : String) :
    OpResult :=
  match truthyPayload
      (get_cached_data_ttl e.cacheFile e.now (get_ttl_seconds "injuries")) with
  | some c =>
    { raised := false
      record := some
        { source := "physioroom", data_type := "injuries"
          fixture_id := none, team_id := some team_id
          data := c, scraped_at := e.now, confidence := 0.8 }
      pagesOpened := 0, pagesClosed := 0, cacheWrites := [] }
  | none =>
    match e.fetchSearch with
    | .raised =>
      { raised := false, record := some (fallback_injuries team_id e.now)
        pagesOpened := 0, pagesClosed := 0, cacheWrites := [] }
    | .page teamLink =>
      match teamLink with
      | none =>
        { raised := false, record := some (fallback_injuries team_id e.now)
          pagesOpened := 1, pagesClosed := 1, cacheWrites := [] }
      | some _ =>
        match e.fetchDetail with
        | .raised =>
          { raised := false, record := some (fallback_injuries team_id e.now)
            pagesOpened := 1, pagesClosed := 1, cacheWrites := [] }
        | .page items =>
          let players := items.filterMap parse_injury_item
          let data := injuries_payload team_name players
          match save_to_cache e.saveOk
              ("physioroom_inj_" ++ toString team_id) data e.now with
          | .error _ =>
            { raised := false
              record := some (fallback_injuries team_id e.now)
              pagesOpened := 2, pagesClosed := 1, cacheWrites := [] }
          | .ok w =>
            { raised := false
              record := some
                { source := "physioroom", data_type := "injuries"
                  fixture_id := none, team_id := some team_id
                  data := data, scraped_at := e.now
                  confidence := if players.isEmpty then 0.6 else 0.9 }
              pagesOpened := 2, pagesClosed := 1, cacheWrites := [w] }

end PhysioRoom

namespace FBref

/-- What the extraction loops of `FBrefScraper._scrape_match_page` read
from the match page: the xG pair from the summary table, the possession
pair and shots-on-target pair from the stats table. -/
structure XgExtract where
  xg : Option (ℚ × ℚ)
  possession : Option (ℚ × ℚ)
  shots : Option (ℤ × ℤ)
deriving Repr, DecidableEq

/-- The `xg_data` dict built by `_scrape_match_page`, including the
momentum score `0.6*xG + 0.004*possession` (possession defaulting to 50)
computed when both xG values are present. -/
def build_xg_data (ext : XgExtract) : Payload :=
  (match ext.xg with
   | some (h, a) => [("home_xg", .num h), ("away_xg", .num a)]
   | none => []) ++
  (match ext.possession with
   | some (h, a) =>
     [("home_possession", .num h), ("away_possession", .num a)]
   | none => []) ++
  (match ext.shots with
   | some (h, a) =>
     [("home_shots_on_target", .num (h : ℚ)),
      ("away_shots_on_target", .num (a : ℚ))]
   | none => []) ++
  (match ext.xg with
   | some (h, a) =>
     let hp := match ext.possession with | some (hp, _) => hp | none => 50
     let ap := match ext.possession with | some (_, ap) => ap | none => 50
     [("momentum_score", .num ((h * 0.6 + hp * 0.004) - (a * 0.6 + ap * 0.004)))]
   | none => [])

/-- `PlaywrightScraper.get_fallback_data`: first the local fallback cache
entry (via the memoized `_get_cached_data`), then a `GET` against the
durable store (`api = none` models a failed request or a non-200 reply);
a 200 reply is written through the fallback cache — if that write raises,
the catch-all returns `None`.  Returns the payload found (if any) and the
cache files written, and threads the memo state. -/
def get_fallback_data (memo : LruCache) (fbCacheFile : Option CacheFile)
    (api : Option Payload) (saveOk : Bool) (now : ℚ)
    (data_type : String) (identifier : ℤ) :
    Option Payload × List (String × CacheFile) :=
  let key := "fallback_" ++ data_type ++ "_" ++ toString identifier
  match truthyPayload (get_cached_data memo key fbCacheFile now).1 with
  | some c => (some c, [])
  | none =>
    match api with
    | some resp =>
      match save_to_cache saveOk key resp now with
      | .ok w => (some resp, [w])
      | .error _ => (none, [])
    | none => (none, [])

/-- The hard-coded static default returned by
`FBrefScraper._get_fallback_xg_data` when the durable store yields
nothing (confidence 0.3). -/
def default_xg_record (fixture_id : ℤ) (now : ℚ) : ScrapedData :=
  { source := "fbref_default", data_type := "match_stats"
    fixture_id := some fixture_id, team_id := none
    data := [("home_xg", .num 1.5), ("away_xg", .num 1.2),
             ("momentum_score", .num 0.1), ("home_possession", .num 52.0),
             ("away_possession", .num 48.0)]
    scraped_at := now, confidence := 0.3 }

/-- `FBrefScraper._get_fallback_xg_data`: durable-store fallback shaped to
the xG payload (confidence 0.5), else the hard-coded static default
(confidence 0.3). -/
def get_fallback_xg_data (memo : LruCache) (fbCacheFile : Option CacheFile)
    (api : Option Payload) (saveOk : Bool) (now : ℚ) (fixture_id : ℤ) :
    ScrapedData × List (String × CacheFile) :=
  let r := get_fallback_data memo fbCacheFile api saveOk now
    "match_stats" fixture_id
  match truthyPayload r.1 with
  | some f =>
    ({ source := "fbref_fallback", data_type := "match_stats"
       fixture_id := some fixture_id, team_id := none
       data := [("home_xg", f.getD "home_xg" (.num 1.5)),
                ("away_xg", f.getD "away_xg" (.num 1.2)),
                ("momentum_score", f.getD "momentum_score" (.num 0.1))]
       scraped_at := now, confidence := 0.5 }, r.2)
  | none => (default_xg_record fixture_id now, r.2)

/-- Environment of one `FBrefScraper.scrape_match_xg` call: clock, the
`lru_cache` memo of `_get_cached_data`, the cache file for
`fbref_xg_{fixture_id}`, the fixtures-page fetch summarized by the match
link found, the match-page fetch summarized by the extracted figures,
whether the write-through cache write succeeds, and the durable-store
fallback inputs (its cache file, the API reply, its cache write). -/
structure XgEnv where
  now : ℚ
  memo : LruCache
  cacheFile : Option CacheFile
  fetchSearch : FetchOutcome (Option String)
  fetchMatch : FetchOutcome XgExtract
  saveOk : Bool
  fbCacheFile : Option CacheFile
  fbApi : Option Payload
  fbSaveOk : Bool
deriving Repr, DecidableEq

/-- `FBrefScraper.scrape_match_xg` (with `_scrape_match_page` inlined at
its call site).  The cache check goes through the memoized 30-minute
`_get_cached_data`, not the TTL table; every exception — including a
cache-write failure inside `_scrape_match_page` — is caught and routed to
the fallback chain; both pages are closed by the `finally` blocks. -/
def scrape_match_xg (e : XgEnv) (fixture_id : ℤ) : OpResult :=
  let key := "fbref_xg_" ++ toString fixture_id
  let cacheRead := get_cached_data e.memo key e.cacheFile e.now
  match truthyPayload cacheRead.1 with
  | some c =>
    { raised := false
      record := some
        { source := "fbref", data_type := "match_stats"
          fixture_id := some fixture_id, team_id := none
          data := c, scraped_at := e.now, confidence := 0.8 }
      pagesOpened := 0, pagesClosed := 0, cacheWrites := [] }
  | none =>
    match e.fetchSearch with
    | .raised =>
      let fb := get_fallback_xg_data cacheRead.2 e.fbCacheFile e.fbApi
        e.fbSaveOk e.now fixture_id
      { raised := false, record := some fb.1
        pagesOpened := 0, pagesClosed := 0, cacheWrites := fb.2 }
    | .page matchUrl =>
      match matchUrl with
      | none =>
        let fb := get_fallback_xg_data cacheRead.2 e.fbCacheFile e.fbApi
          e.fbSaveOk e.now fixture_id
        { raised := false, record := some fb.1
          pagesOpened := 1, pagesClosed := 1, cacheWrites := fb.2 }
      | some _ =>
        match e.fetchMatch with
        | .raised =>
          let fb := get_fallback_xg_data cacheRead.2 e.fbCacheFile e.fbApi
            e.fbSaveOk e.now fixture_id
          { raised := false, record := some fb.1
            pagesOpened := 1, pagesClosed := 1, cacheWrites := fb.2 }
        | .page ext =>
          let xg_data := build_xg_data ext
          match save_to_cache e.saveOk key xg_data e.now with
          | .ok w =>
            { raised := false
              record := some
                { source := "fbref", data_type := "match_stats"
                  fixture_id := some fixture_id, team_id := none
                  data := xg_data, scraped_at := e.now, confidence := 1.0 }
              pagesOpened := 2, pagesClosed := 2, cacheWrites := [w] }
          | .error _ =>
            let fb := get_fallback_xg_data cacheRead.2 e.fbCacheFile e.fbApi
              e.fbSaveOk e.now fixture_id
            { raised := false, record := some fb.1
              pagesOpened := 2, pagesClosed := 2, cacheWrites := fb.2 }

/-- What the extraction loops of `FBrefScraper._scrape_team_page` read
from the squad page: the result letters of the first five data rows of
the match-log table, and the season goals for/against pair. -/
structure FormExtract where
  resultCells : List String
  seasonGoals : Option (ℤ × ℤ)
deriving Repr, DecidableEq

/-- Last-5 results kept by `_scrape_team_page`: the first five row
results filtered to `W`/`D`/`L`. -/
def recent_results (ext : FormExtract) : List String :=
  (ext.resultCells.take 5).filter (fun r => r == "W" || r == "D" || r == "L")

/-- The `form_data` dict built by `_scrape_team_page`: form string,
last-5 list and 3/1/0 points when any result was found, plus the season
goals columns when parsed. -/
def build_form_data (ext : FormExtract) : Payload :=
  let recent := recent_results ext
  (if recent.isEmpty then []
   else
    [("form_string", .str (String.join recent)),
     ("last_5_results", .strs recent),
     ("points_last_5", .num ((recent.map
        (fun r => if r == "W" then (3 : ℚ) else if r == "D" then 1 else 0)).sum))]) ++
  (match ext.seasonGoals with
   | some (gf, ga) =>
     [("goals_scored_season", .num (gf : ℚ)),
      ("goals_conceded_season", .num (ga : ℚ))]
   | none => [])

/-- `FBrefScraper._get_fallback_form_data`: the hard-coded static default
form record (confidence 0.3). -/
def get_fallback_form_data (team_id : ℤ) (now : ℚ) : ScrapedData :=
  { source := "fbref_default", data_type := "team_form"
    fixture_id := none, team_id := some team_id
    data := [("form_string", .str "WWDLW"), ("points_last_5", .num 10),
             ("goals_scored_last_5", .num 8), ("goals_conceded_last_5", .num 4)]
    scraped_at := now, confidence := 0.3 }

/-- Environment of one `FBrefScraper.scrape_team_form` call. -/
structure FormEnv where
  now : ℚ
  memo : LruCache
  cacheFile : Option CacheFile
  fetchSearch : FetchOutcome (Option String)
  fetchTeam : FetchOutcome FormExtract
  saveOk : Bool
deriving Repr, DecidableEq

/-- `FBrefScraper.scrape_team_form` (with `_scrape_team_page` inlined at
its call site).  Cache check through the memoized 30-minute
`_get_cached_data`; every exception is caught and routed to the static
form fallback; both pages are closed by the `finally` blocks. -/
def scrape_team_form (e : FormEnv) (team_id : ℤ) : OpResult :=
  let key := "fbref_form_" ++ toString team_id
  match truthyPayload (get_cached_data e.memo key e.cacheFile e.now).1 with
  | some c =>
    { raised := false
      record := some
        { source := "fbref", data_type := "team_form"
          fixture_id := none, team_id := some team_id
          data := c, scraped_at := e.now, confidence := 0.8 }
      pagesOpened := 0, pagesClosed := 0, cacheWrites := [] }
  | none =>
    match e.fetchSearch with
    | .raised =>
      { raised := false
        record := some (get_fallback_form_data team_id e.now)
        pagesOpened := 0, pagesClosed := 0, cacheWrites := [] }
    | .page teamUrl =>
      match teamUrl with
      | none =>
        { raised := false
          record := some (get_fallback_form_data team_id e.now)
          pagesOpened := 1, pagesClosed := 1, cacheWrites := [] }
      | some _ =>
        match e.fetchTeam with
        | .raised =>
          { raised := false
            record := some (get_fallback_form_data team_id e.now)
            pagesOpened := 1, pagesClosed := 1, cacheWrites := [] }
        | .page ext =>
          let form_data := build_form_data ext
          match save_to_cache e.saveOk key form_data e.now with
          | .ok w =>
            { raised := false
              record := some
                { source := "fbref", data_type := "team_form"
                  fixture_id := none, team_id := some team_id
                  data := form_data, scraped_at := e.now, confidence := 1.0 }
              pagesOpened := 2, pagesClosed := 2, cacheWrites := [w] }
          | .error _ =>
            { raised := false
              record := some (get_fallback_form_data team_id e.now)
              pagesOpened := 2, pagesClosed := 2, cacheWrites := [] }

end FBref

namespace WhoScored

/-- What the extraction loops of
`WhoScoredScraper._scrape_team_ratings_page` read from the team page
(each field absent when no matching element/regex was found; the overall
rating is only stored when within 0–10). -/
structure RatingsExtract where
  overall_rating : Option ℚ
  avg_goals_per_game : Option ℚ
  avg_shots_per_game : Option ℚ
  avg_possession : Option ℚ
  clean_sheets : Option ℤ
  avg_goals_conceded : Option ℚ
deriving Repr, DecidableEq

/-- The `ratings_data` dict built by `_scrape_team_ratings_page`,
including the momentum indicator
`0.6*rating + 2.0*goal_factor + 1.5*defensive_factor` appended when the
dict is non-empty (`if ratings_data:`). -/
def build_ratings_data (ext : RatingsExtract) : Payload :=
  let base : Payload :=
    (match ext.overall_rating with
     | some r => [("overall_rating", .num r)] | none => []) ++
    (match ext.avg_goals_per_game with
     | some g => [("avg_goals_per_game", .num g)] | none => []) ++
    (match ext.avg_shots_per_game with
     | some s => [("avg_shots_per_game", .num s)] | none => []) ++
    (match ext.avg_possession with
     | some p => [("avg_possession", .num p)] | none => []) ++
    (match ext.clean_sheets with
     | some c => [("clean_sheets", .num (c : ℚ))] | none => []) ++
    (match ext.avg_goals_conceded with
     | some c => [("avg_goals_conceded", .num c)] | none => [])
  if base.isEmpty then base
  else
    let br := match ext.overall_rating with | some r => r | none => 6.5
    let gf := min ((match ext.avg_goals_per_game with
      | some g => g | none => 1.0) * 0.5) 1.0
    let df := max 0 (1.0 - (match ext.avg_goals_conceded with
      | some c => c | none => 1.5) * 0.3)
    base ++ [("momentum_indicator", .num (br * 0.6 + gf * 2.0 + df * 1.5))]

/-- `WhoScoredScraper._get_fallback_ratings_data`: the hard-coded static
default ratings record (confidence 0.3). -/
def get_fallback_ratings_data (team_id : ℤ) (now : ℚ) : ScrapedData :=
  { source := "whoscored_default", data_type := "team_ratings"
    fixture_id := none, team_id := some team_id
    data := [("overall_rating", .num 6.5), ("avg_goals_per_game", .num 1.2),
             ("avg_goals_conceded", .num 1.1), ("avg_possession", .num 52.0),
             ("momentum_indicator", .num 6.8), ("clean_sheets", .num 3)]
    scraped_at := now, confidence := 0.3 }

/-- Environment of one `WhoScoredScraper.scrape_team_ratings` call: the
search-page fetch is summarized by the team URL found (`none` when the
search input is missing or no link matches). -/
structure RatingsEnv where
  now : ℚ
  memo : LruCache
  cacheFile : Option CacheFile
  fetchSearch : FetchOutcome (Option String)
  fetchTeam : FetchOutcome RatingsExtract
  saveOk : Bool
deriving Repr, DecidableEq

/-- `WhoScoredScraper.scrape_team_ratings` (with
`_scrape_team_ratings_page` inlined at its call site).  Cache check
through the memoized 30-minute `_get_cached_data`; every exception is
caught and routed to the static ratings fallback; both pages are closed
by the `finally` blocks. -/
def scrape_team_ratings (e : RatingsEnv) (team_id : ℤ) : OpResult :=
  let key := "whoscored_ratings_" ++ toString team_id
  match truthyPayload (get_cached_data e.memo key e.cacheFile e.now).1 with
  | some c =>
    { raised := false
      record := some
        { source := "whoscored", data_type := "team_ratings"
          fixture_id := none, team_id := some team_id
          data := c, scraped_at := e.now, confidence := 0.8 }
      pagesOpened := 0, pagesClosed := 0, cacheWrites := [] }
  | none =>
    match e.fetchSearch with
    | .raised =>
      { raised := false
        record := some (get_fallback_ratings_data team_id e.now)
        pagesOpened := 0, pagesClosed := 0, cacheWrites := [] }
    | .page teamUrl =>
      match teamUrl with
      | none =>
        { raised := false
          record := some (get_fallback_ratings_data team_id e.now)
          pagesOpened := 1, pagesClosed := 1, cacheWrites := [] }
      | some _ =>
        match e.fetchTeam with
        | .raised =>
          { raised := false
            record := some (get_fallback_ratings_data team_id e.now)
            pagesOpened := 1, pagesClosed := 1, cacheWrites := [] }
        | .page ext =>
          let ratings_data := build_ratings_data ext
          match save_to_cache e.saveOk key ratings_data e.now with
          | .ok w =>
            { raised := false
              record := some
                { source := "whoscored", data_type := "team_ratings"
                  fixture_id := none, team_id := some team_id
                  data := ratings_data, scraped_at := e.now
                  confidence := 1.0 }
              pagesOpened := 2, pagesClosed := 2, cacheWrites := [w] }
          | .error _ =>
            { raised := false
              record := some (get_fallback_ratings_data team_id e.now)
              pagesOpened := 2, pagesClosed := 2, cacheWrites := [] }

/-- What `WhoScoredScraper.scrape_match_insights` reads from the matching
fixture element: each rating element's parsed value (`none` when its text
did not match the number regex); only the elements at indices 0 and 1 can
populate `home_rating` / `away_rating`. -/
structure InsightsExtract where
  ratingCells : List (Option ℚ)
deriving Repr, DecidableEq

/-- The `insights_data` dict built inside the fixture-element loop. -/
def build_insights_data (home_team away_team : String)
    (ext : InsightsExtract) : Payload :=
  [("home_team", .str home_team), ("away_team", .str away_team),
   ("match_found", .vbool true)] ++
  (match ext.ratingCells.getD 0 none with
   | some q => [("home_rating", .num q)] | none => []) ++
  (match ext.ratingCells.getD 1 none with
   | some q => [("away_rating", .num q)] | none => [])

/-- `WhoScoredScraper._get_fallback_match_data`: the hard-coded static
default match-insights record (confidence 0.3). -/
def get_fallback_match_data (fixture_id : ℤ) (now : ℚ) : ScrapedData :=
  { source := "whoscored_default", data_type := "match_insights"
    fixture_id := some fixture_id, team_id := none
    data := [("home_rating", .num 6.5), ("away_rating", .num 6.3),
             ("match_found", .vbool false),
             ("prediction_confidence", .num 0.3)]
    scraped_at := now, confidence := 0.3 }

/-- Environment of one `WhoScoredScraper.scrape_match_insights` call: the
live-scores fetch is summarized by the extraction from the fixture
element containing both team names (`none` when no element matches). -/
structure InsightsEnv where
  now : ℚ
  memo : LruCache
  cacheFile : Option CacheFile
  fetchLive : FetchOutcome (Option InsightsExtract)
  saveOk : Bool
deriving Repr, DecidableEq

/-- `WhoScoredScraper.scrape_match_insights`.  Cache check through the
memoized 30-minute `_get_cached_data`; a fresh hit returns confidence
0.7; a cache-write failure is swallowed by the per-element bare `except`,
so the loop falls through to the static fallback; the single page is
closed by the `finally` block. -/
def scrape_match_insights (e : InsightsEnv) (fixture_id : ℤ)
    (home_team away_team : String) : OpResult :=
  let key := "whoscored_match_" ++ toString fixture_id
  match truthyPayload (get_cached_data e.memo key e.cacheFile e.now).1 with
  | some c =>
    { raised := false
      record := some
        { source := "whoscored", data_type := "match_insights"
          fixture_id := some fixture_id, team_id := none
          data := c, scraped_at := e.now, confidence := 0.8 }
      pagesOpened := 0, pagesClosed := 0, cacheWrites := [] }
  | none =>
    match e.fetchLive with
    | .raised =>
      { raised := false
        record := some (get_fallback_match_data fixture_id e.now)
        pagesOpened := 0, pagesClosed := 0, cacheWrites := [] }
    | .page found =>
      match found with
      | none =>
        { raised := false
          record := some (get_fallback_match_data fixture_id e.now)
          pagesOpened := 1, pagesClosed := 1, cacheWrites := [] }
      | some ext =>
        let insights_data := build_insights_data home_team away_team ext
        match save_to_cache e.saveOk key insights_data e.now with
        | .ok w =>
          { raised := false
            record := some
              { source := "whoscored", data_type := "match_insights"
                fixture_id := some fixture_id, team_id := none
                data := insights_data, scraped_at := e.now
                confidence := 0.7 }
            pagesOpened := 1, pagesClosed := 1, cacheWrites := [w] }
        | .error _ =>
          { raised := false
            record := some (get_fallback_match_data fixture_id e.now)
            pagesOpened := 1, pagesClosed := 1, cacheWrites := [] }

end WhoScored

/-- Claim C6: an OddsPortal `scrape_fixture_odds` call with no valid cache
entry and an unreachable network (the search fetch raises) returns the
static fallback record with `source="oddsportal"`, `data_type="odds"`,
confidence 0.5 and payload values home_open 2.00, draw_open 3.20,
away_open 3.50, home_drift -0.05. -/
theorem C6_offline_odds_fallback (e : OddsPortal.Env) (fid : ℤ)
    (hc : truthyPayload
      (get_cached_data_ttl e.cacheFile e.now (get_ttl_seconds "odds")) = none)
    (hf : e.fetchSearch = .raised) :
    (OddsPortal.scrape_fixture_odds e fid).record
      = some (OddsPortal.fallback_odds_data fid e.now)
    ∧ (OddsPortal.fallback_odds_data fid e.now).source = "oddsportal"
    ∧ (OddsPortal.fallback_odds_data fid e.now).data_type = "odds"
    ∧ (OddsPortal.fallback_odds_data fid e.now).confidence = 0.5
    ∧ (OddsPortal.fallback_odds_data fid e.now).data.lookup "home_open"
        = some (.num 2.00)
    ∧ (OddsPortal.fallback_odds_data fid e.now).data.lookup "draw_open"
        = some (.num 3.20)
    ∧ (OddsPortal.fallback_odds_data fid e.now).data.lookup "away_open"
        = some (.num 3.50)
    ∧ (OddsPortal.fallback_odds_data fid e.now).data.lookup "home_drift"
        = some (.num (-0.05)) := by
  refine ⟨?_, rfl, rfl, rfl, rfl, rfl, rfl, rfl⟩
  simp only [OddsPortal.scrape_fixture_odds, hc, hf]

/-- Witness for C6 at a concrete environment. -/
theorem C6_witness :
    (OddsPortal.scrape_fixture_odds ⟨0, none, .raised, .raised, true⟩ 1).record
      = some (OddsPortal.fallback_odds_data 1 0) :=
  (C6_offline_odds_fallback ⟨0, none, .raised, .raised, true⟩ 1 rfl rfl).1

/-- Claim C7 counterexample: a PhysioRoom scrape that loads its pages but
finds zero injury snippets matching the keyword heuristic returns
confidence 0.6 (the `0.9 if players else 0.6` branch), not 0.4 as the
claim states. -/
theorem C7_counterexample :
    (PhysioRoom.scrape_team_injuries
      ⟨0, none, .page (some "l"), .page ["no new problems reported"], true⟩
      7 "arsenal").conf = some 0.6
    ∧ (0.6 : ℚ) ≠ 0.4 :=
  ⟨rfl, by norm_num⟩

/-- Claim C7 (amended): a PhysioRoom `scrape_team_injuries` call that
loads its pages but finds zero injury snippets matching the keyword
heuristic returns, without raising, a record whose payload holds the team
name together with `players = []`, `count = 0` and `severity_sum = 0`,
with confidence 0.6 (0.4 is the confidence of the fetch-failure fallback
record `_fallback_injuries`). -/
theorem C7_zero_injury_snippets (e : PhysioRoom.Env) (tid : ℤ)
    (tname lnk : String) (items : List String)
    (hc : truthyPayload
      (get_cached_data_ttl e.cacheFile e.now (get_ttl_seconds "injuries"))
        = none)
    (h1 : e.fetchSearch = .page (some lnk))
    (h2 : e.fetchDetail = .page items)
    (hp : items.filterMap PhysioRoom.parse_injury_item = [])
    (hs : e.saveOk = true) :
    (PhysioRoom.scrape_team_injuries e tid tname).record
      = some
        { source := "physioroom", data_type := "injuries"
          fixture_id := none, team_id := some tid
          data := PhysioRoom.injuries_payload tname []
          scraped_at := e.now, confidence := 0.6 }
    ∧ (PhysioRoom.scrape_team_injuries e tid tname).raised = false
    ∧ PhysioRoom.injuries_payload tname []
        = [("team_name", .str tname), ("players", .players []),
           ("count", .num 0), ("severity_sum", .num 0)] := by
  refine ⟨?_, ?_, rfl⟩ <;>
    simp only [PhysioRoom.scrape_team_injuries, hc, h1, h2, hp, hs,
      save_to_cache, if_true, List.isEmpty_nil, if_pos]

/-- Witness for C7 at a concrete environment. -/
theorem C7_witness :
    (PhysioRoom.scrape_team_injuries
      ⟨0, none, .page (some "l"), .page ["no new problems reported"], true⟩
      7 "arsenal").record
      = some
        { source := "physioroom", data_type := "injuries"
          fixture_id := none, team_id := some 7
          data := PhysioRoom.injuries_payload "arsenal" []
          scraped_at := 0, confidence := 0.6 } :=
  (C7_zero_injury_snippets
    ⟨0, none, .page (some "l"), .page ["no new problems reported"], true⟩
    7 "arsenal" "l" ["no new problems reported"] rfl rfl rfl (by decide) rfl).1

/-- Claim C4 (code bug): on a successful OddsPortal scrape the operation
opens two pages (the search page and the odds page) but closes only one —
`odds_page` is never closed — and likewise a successful PhysioRoom scrape
leaves its `detail` page open, contradicting "every page is closed on
every exit path". -/
theorem C4_page_leak :
    (OddsPortal.scrape_fixture_odds
      ⟨0, none, .page (some "u"), .page [1.85, 3.4, 4.2], true⟩ 1).pagesOpened
        = 2
    ∧ (OddsPortal.scrape_fixture_odds
      ⟨0, none, .page (some "u"), .page [1.85, 3.4, 4.2], true⟩ 1).pagesClosed
        = 1
    ∧ (PhysioRoom.scrape_team_injuries
      ⟨0, none, .page (some "l"), .page ["Saka - Ankle sprain"], true⟩
      7 "arsenal").pagesOpened = 2
    ∧ (PhysioRoom.scrape_team_injuries
      ⟨0, none, .page (some "l"), .page ["Saka - Ankle sprain"], true⟩
      7 "arsenal").pagesClosed = 1 :=
  ⟨rfl, rfl, rfl, rfl⟩

/-- Claim C9 counterexample: a failing cache-file write raises out of
`_save_to_cache` (the body has no exception handling), and inside a
scrape operation that exception — absorbed by the operation's catch-all —
discards the freshly scraped result in favor of the static fallback. -/
theorem C9_counterexample :
    save_to_cache false "k" [] 0 = .error ()
    ∧ (OddsPortal.scrape_fixture_odds
        ⟨0, none, .page (some "u"), .page [1.85, 3.4, 4.2], false⟩ 1).record
      = some (OddsPortal.fallback_odds_data 1 0) :=
  ⟨rfl, rfl⟩

/-- Claim C9 (amended): a failure while writing the cache file raises
from `_save_to_cache` into the scrape operation that invoked it; the
operation's catch-all absorbs the exception, so the public operation
still returns without raising — but the fresh in-memory scrape result is
discarded and the static fallback record is returned instead. -/
theorem C9_cache_write_failure (eo : OddsPortal.Env) (ep : PhysioRoom.Env)
    (fid tid : ℤ) (tname uo lp : String) (nums : List ℚ)
    (items : List String)
    (ho : truthyPayload
      (get_cached_data_ttl eo.cacheFile eo.now (get_ttl_seconds "odds")) = none)
    (ho1 : eo.fetchSearch = .page (some uo))
    (ho2 : eo.fetchMatch = .page nums)
    (hos : eo.saveOk = false)
    (hp : truthyPayload
      (get_cached_data_ttl ep.cacheFile ep.now (get_ttl_seconds "injuries"))
        = none)
    (hp1 : ep.fetchSearch = .page (some lp))
    (hp2 : ep.fetchDetail = .page items)
    (hps : ep.saveOk = false) :
    (OddsPortal.scrape_fixture_odds eo fid).raised = false
    ∧ (OddsPortal.scrape_fixture_odds eo fid).record
        = some (OddsPortal.fallback_odds_data fid eo.now)
    ∧ (OddsPortal.scrape_fixture_odds eo fid).cacheWrites = []
    ∧ (PhysioRoom.scrape_team_injuries ep tid tname).raised = false
    ∧ (PhysioRoom.scrape_team_injuries ep tid tname).record
        = some (PhysioRoom.fallback_injuries tid ep.now)
    ∧ (PhysioRoom.scrape_team_injuries ep tid tname).cacheWrites = [] := by
  refine ⟨?_, ?_, ?_, ?_, ?_, ?_⟩ <;>
    simp only [OddsPortal.scrape_fixture_odds,
      PhysioRoom.scrape_team_injuries, ho, ho1, ho2, hos, hp, hp1, hp2, hps,
      save_to_cache, if_false, Bool.false_eq_true]

/-- Witness for C9 at concrete environments. -/
theorem C9_witness :
    (OddsPortal.scrape_fixture_odds
      ⟨0, none, .page (some "u"), .page [1.85, 3.4, 4.2], false⟩ 1).record
      = some (OddsPortal.fallback_odds_data 1 0)
    ∧ (PhysioRoom.scrape_team_injuries
      ⟨0, none, .page (some "l"), .page ["Saka - Ankle sprain"], false⟩
      7 "arsenal").record = some (PhysioRoom.fallback_injuries 7 0) := by
  have h := C9_cache_write_failure
    ⟨0, none, .page (some "u"), .page [1.85, 3.4, 4.2], false⟩
    ⟨0, none, .page (some "l"), .page ["Saka - Ankle sprain"], false⟩
    1 7 "arsenal" "u" "l" [1.85, 3.4, 4.2] ["Saka - Ankle sprain"]
    rfl rfl rfl rfl rfl rfl rfl rfl
  exact ⟨h.2.1, h.2.2.2.2.1⟩

/-- When every attempt yields neither 201 nor 401, the tenacity loop of
`persist_scraped_data` makes exactly 3 attempts, waits the clamped
exponential delays in between, and raises `RetryError`. -/
theorem persist_attempts_all_transient (resp : ℕ → HttpOutcome)
    (h201 : ∀ n, resp n ≠ .status 201) (h401 : ∀ n, resp n ≠ .status 401) :
    persist_attempts resp
      = (.raisedRetryError, 3,
         [wait_exponential 2 5 60 1, wait_exponential 2 5 60 2]) := by
  unfold persist_attempts
  split
  · exact absurd (by assumption) (h201 0)
  · exact absurd (by assumption) (h401 0)
  · split
    · exact absurd (by assumption) (h201 1)
    · exact absurd (by assumption) (h401 1)
    · split
      · exact absurd (by assumption) (h201 2)
      · exact absurd (by assumption) (h401 2)
      · rfl

/-- Claim C2 counterexample: under permanent transient failures (HTTP
500 on every attempt) `persist_scraped_data` makes its 3 attempts and
then raises without writing any dead-letter entry, and under HTTP 401 it
returns after one attempt, again without dead-lettering — contradicting
the claim that the record "is then written to a dead-letter cache entry". -/
theorem C2_counterexample :
    (persist_scraped_data true (fun _ => .status 500)).deadLetters = []
    ∧ (persist_scraped_data true (fun _ => .status 500)).outcome
        = .raisedRetryError
    ∧ (persist_scraped_data true (fun _ => .status 500)).attempts = 3
    ∧ (persist_scraped_data true (fun _ => .status 401)).deadLetters = []
    ∧ (persist_scraped_data true (fun _ => .status 401)).attempts = 1 :=
  ⟨rfl, rfl, rfl, rfl, rfl⟩

/-- Claim C2 (amended): when every HTTP attempt yields a transient
(non-201, non-401) outcome, `persist_scraped_data` makes exactly 3
attempts with strictly increasing backoff delays (5 s then 8 s) and then
re-raises to its caller without dead-lettering; on HTTP 401 it makes
exactly one attempt, with no retry and no dead-letter.  Dead-lettering —
a cache entry tagged with the error and `retry_after = now + 300` — is
performed only by the legacy `save_to_database` wrapper: it makes exactly
one attempt and, when the response status is in 400-599 or the request
errors, writes the dead-letter entry provided the dead-letter cache write
itself succeeds; when that write fails, the exception propagates and no
dead letter is written. -/
theorem C2_retry_and_dead_letter_behavior
    (resp resp401 : ℕ → HttpOutcome) (d : ScrapedData) (err : String)
    (now : ℚ) (code : ℕ)
    (h201 : ∀ n, resp n ≠ .status 201) (h401 : ∀ n, resp n ≠ .status 401)
    (hr0 : resp401 0 = .status 401)
    (hcode : 400 ≤ code) (hcode6 : code < 600) :
    persist_scraped_data true resp
      = { outcome := .raisedRetryError, attempts := 3, waits := [5, 8]
          deadLetters := [] }
    ∧ (5 : ℚ) < 8
    ∧ persist_scraped_data true resp401
      = { outcome := .authFail, attempts := 1, waits := [], deadLetters := [] }
    ∧ save_to_database d (.status code) err now true
        = .ok [dead_letter_for d err now]
    ∧ save_to_database d .transportError err now true
        = .ok [dead_letter_for d err now]
    ∧ save_to_database d (.status code) err now false = .error ()
    ∧ save_to_database d .transportError err now false = .error ()
    ∧ (dead_letter_for d err now).retry_after = now + 300
    ∧ (dead_letter_for d err now).error = err := by
  have hw1 : wait_exponential 2 5 60 1 = 5 := by norm_num [wait_exponential]
  have hw2 : wait_exponential 2 5 60 2 = 8 := by norm_num [wait_exponential]
  refine ⟨?_, by norm_num, ?_, ?_, rfl, ?_, rfl, rfl, rfl⟩
  · simp only [persist_scraped_data, if_true,
      persist_attempts_all_transient resp h201 h401, hw1, hw2]
  · simp only [persist_scraped_data, if_true]
    unfold persist_attempts
    rw [hr0]
  · unfold save_to_database
    show (if 400 ≤ code ∧ code < 600 then
        match write_dead_letter true d err now with
        | .ok dl => Except.ok [dl]
        | .error e => Except.error e
      else Except.ok []) = .ok [dead_letter_for d err now]
    rw [if_pos ⟨hcode, hcode6⟩]
    rfl
  · unfold save_to_database
    show (if 400 ≤ code ∧ code < 600 then
        match write_dead_letter false d err now with
        | .ok dl => Except.ok [dl]
        | .error e => Except.error e
      else Except.ok []) = .error ()
    rw [if_pos ⟨hcode, hcode6⟩]
    rfl

/-- Witness for C2 at concrete inputs. -/
theorem C2_witness :
    persist_scraped_data true (fun _ => .status 500)
      = { outcome := .raisedRetryError, attempts := 3, waits := [5, 8]
          deadLetters := [] }
    ∧ save_to_database ⟨"fbref", "match_stats", some 1, none, [], 0, 1.0⟩
        (.status 500) "HTTP 500" 0 true
      = .ok [dead_letter_for ⟨"fbref", "match_stats", some 1, none, [], 0, 1.0⟩
          "HTTP 500" 0] := by
  have h201c : ∀ n : ℕ,
      (fun _ : ℕ => HttpOutcome.status 500) n ≠ HttpOutcome.status 201 := by
    intro n
    show HttpOutcome.status 500 ≠ HttpOutcome.status 201
    decide
  have h401c : ∀ n : ℕ,
      (fun _ : ℕ => HttpOutcome.status 500) n ≠ HttpOutcome.status 401 := by
    intro n
    show HttpOutcome.status 500 ≠ HttpOutcome.status 401
    decide
  have h := C2_retry_and_dead_letter_behavior
    (fun _ => .status 500) (fun _ => .status 401)
    ⟨"fbref", "match_stats", some 1, none, [], 0, 1.0⟩ "HTTP 500" 0 500
    h201c h401c rfl (by norm_num) (by norm_num)
  exact ⟨h.1, h.2.2.2.1⟩

/-- The request start time recorded by `_respect_rate_limit` equals the
new `last_request_time` in both branches. -/
theorem respect_rate_limit_fst_eq_snd (md last now jitter : ℚ) :
    (respect_rate_limit md last now jitter).1
      = (respect_rate_limit md last now jitter).2 := by
  unfold respect_rate_limit
  split <;> rfl

/-- One rate-limited request starts at least `min_delay` after the
recorded previous request time, for any non-negative jitter. -/
theorem respect_rate_limit_lower_bound (md last now jitter : ℚ)
    (hj : 0 ≤ jitter) :
    md ≤ (respect_rate_limit md last now jitter).1 - last := by
  unfold respect_rate_limit
  split
  · simp only
    linarith
  · linarith [not_lt.mp (by assumption : ¬ now - last < md)]

/-- Claim C8: with the idealized monotone clock, two consecutive requests
issued through `_respect_rate_limit` start at least `min_delay` apart
(jitter only lengthens the gap), and the per-site `min_delay` values are
45 s for FBref, OddsPortal and PhysioRoom and 90 s for WhoScored. -/
theorem C8_rate_limit_lower_bound (md last now jitter now2 jitter2 : ℚ)
    (hj : 0 ≤ jitter) (hj2 : 0 ≤ jitter2) :
    md ≤ (respect_rate_limit md last now jitter).1 - last
    ∧ md ≤ (respect_rate_limit md
          (respect_rate_limit md last now jitter).2 now2 jitter2).1
        - (respect_rate_limit md last now jitter).1
    ∧ fbref_min_delay = 45 ∧ oddsportal_min_delay = 45
    ∧ physioroom_min_delay = 45 ∧ whoscored_min_delay = 90 := by
  refine ⟨respect_rate_limit_lower_bound md last now jitter hj, ?_,
    rfl, rfl, rfl, rfl⟩
  rw [respect_rate_limit_fst_eq_snd md last now jitter]
  exact respect_rate_limit_lower_bound md
    (respect_rate_limit md last now jitter).2 now2 jitter2 hj2

/-- Witness for C8 at concrete times: previous request recorded at 0,
clock at 10, jitter 5, next call at clock 60 with jitter 7. -/
theorem C8_witness :
    (45 : ℚ) ≤ (respect_rate_limit 45 0 10 5).1 - 0
    ∧ (45 : ℚ) ≤ (respect_rate_limit 45 (respect_rate_limit 45 0 10 5).2 60 7).1
        - (respect_rate_limit 45 0 10 5).1 := by
  have h := C8_rate_limit_lower_bound 45 0 10 5 60 7
    (by norm_num) (by norm_num)
  exact ⟨h.1, h.2.1⟩

/-- An absent payload is falsy. -/
theorem truthyPayload_none : truthyPayload none = none := rfl

/-- Claim C1: for every public scrape operation, when the network/browser
layer raises on every attempt (and no cache tier yields a hit), the
operation returns the non-null hard-coded terminal fallback record of its
site — without opening any page, without writing the cache, and without
raising to its caller. -/
theorem C1_total_fetch_failure_static_fallback
    (eo : OddsPortal.Env) (ep : PhysioRoom.Env) (ex : FBref.XgEnv)
    (ef : FBref.FormEnv) (er : WhoScored.RatingsEnv)
    (ei : WhoScored.InsightsEnv) (fid tid : ℤ) (tname ht aw : String)
    (ho1 : truthyPayload
      (get_cached_data_ttl eo.cacheFile eo.now (get_ttl_seconds "odds")) = none)
    (ho2 : eo.fetchSearch = .raised)
    (hp1 : truthyPayload
      (get_cached_data_ttl ep.cacheFile ep.now (get_ttl_seconds "injuries"))
        = none)
    (hp2 : ep.fetchSearch = .raised)
    (hx1 : truthyPayload
      (get_cached_data ex.memo ("fbref_xg_" ++ toString fid) ex.cacheFile
        ex.now).1 = none)
    (hx2 : ex.fetchSearch = .raised)
    (hx3 : truthyPayload
      (get_cached_data
        (get_cached_data ex.memo ("fbref_xg_" ++ toString fid) ex.cacheFile
          ex.now).2
        ("fallback_" ++ "match_stats" ++ "_" ++ toString fid) ex.fbCacheFile
        ex.now).1 = none)
    (hx4 : ex.fbApi = none)
    (hf1 : truthyPayload
      (get_cached_data ef.memo ("fbref_form_" ++ toString tid) ef.cacheFile
        ef.now).1 = none)
    (hf2 : ef.fetchSearch = .raised)
    (hr1 : truthyPayload
      (get_cached_data er.memo ("whoscored_ratings_" ++ toString tid)
        er.cacheFile er.now).1 = none)
    (hr2 : er.fetchSearch = .raised)
    (hi1 : truthyPayload
      (get_cached_data ei.memo ("whoscored_match_" ++ toString fid)
        ei.cacheFile ei.now).1 = none)
    (hi2 : ei.fetchLive = .raised) :
    OddsPortal.scrape_fixture_odds eo fid
      = ⟨false, some (OddsPortal.fallback_odds_data fid eo.now), 0, 0, []⟩
    ∧ PhysioRoom.scrape_team_injuries ep tid tname
      = ⟨false, some (PhysioRoom.fallback_injuries tid ep.now), 0, 0, []⟩
    ∧ FBref.scrape_match_xg ex fid
      = ⟨false, some (FBref.default_xg_record fid ex.now), 0, 0, []⟩
    ∧ FBref.scrape_team_form ef tid
      = ⟨false, some (FBref.get_fallback_form_data tid ef.now), 0, 0, []⟩
    ∧ WhoScored.scrape_team_ratings er tid
      = ⟨false, some (WhoScored.get_fallback_ratings_data tid er.now), 0, 0, []⟩
    ∧ WhoScored.scrape_match_insights ei fid ht aw
      = ⟨false, some (WhoScored.get_fallback_match_data fid ei.now), 0, 0, []⟩
      := by
  refine ⟨?_, ?_, ?_, ?_, ?_, ?_⟩
  · simp only [OddsPortal.scrape_fixture_odds, ho1, ho2]
  · simp only [PhysioRoom.scrape_team_injuries, hp1, hp2]
  · simp only [FBref.scrape_match_xg, FBref.get_fallback_xg_data,
      FBref.get_fallback_data, hx1, hx2, hx3, hx4, truthyPayload_none]
  · simp only [FBref.scrape_team_form, hf1, hf2]
  · simp only [WhoScored.scrape_team_ratings, hr1, hr2]
  · simp only [WhoScored.scrape_match_insights, hi1, hi2]

/-- Witness for C1 at concrete degraded environments (empty caches,
every fetch raising). -/
theorem C1_witness :
    OddsPortal.scrape_fixture_odds ⟨0, none, .raised, .raised, true⟩ 1
      = ⟨false, some (OddsPortal.fallback_odds_data 1 0), 0, 0, []⟩
    ∧ PhysioRoom.scrape_team_injuries ⟨0, none, .raised, .raised, true⟩
        2 "arsenal"
      = ⟨false, some (PhysioRoom.fallback_injuries 2 0), 0, 0, []⟩
    ∧ FBref.scrape_match_xg ⟨0, ⟨[]⟩, none, .raised, .raised, true,
        none, none, true⟩ 1
      = ⟨false, some (FBref.default_xg_record 1 0), 0, 0, []⟩
    ∧ FBref.scrape_team_form ⟨0, ⟨[]⟩, none, .raised, .raised, true⟩ 2
      = ⟨false, some (FBref.get_fallback_form_data 2 0), 0, 0, []⟩
    ∧ WhoScored.scrape_team_ratings ⟨0, ⟨[]⟩, none, .raised, .raised, true⟩ 2
      = ⟨false, some (WhoScored.get_fallback_ratings_data 2 0), 0, 0, []⟩
    ∧ WhoScored.scrape_match_insights ⟨0, ⟨[]⟩, none, .raised, true⟩
        1 "liverpool" "chelsea"
      = ⟨false, some (WhoScored.get_fallback_match_data 1 0), 0, 0, []⟩ :=
  C1_total_fetch_failure_static_fallback
    ⟨0, none, .raised, .raised, true⟩ ⟨0, none, .raised, .raised, true⟩
    ⟨0, ⟨[]⟩, none, .raised, .raised, true, none, none, true⟩
    ⟨0, ⟨[]⟩, none, .raised, .raised, true⟩
    ⟨0, ⟨[]⟩, none, .raised, .raised, true⟩ ⟨0, ⟨[]⟩, none, .raised, true⟩
    1 2 "arsenal" "liverpool" "chelsea"
    rfl rfl rfl rfl rfl rfl rfl rfl rfl rfl rfl rfl rfl rfl

/-- Claim C5 counterexample: the claim fails for FBref.  A cache entry of
age 2000 s is strictly younger than the match_stats TTL (86400 s), so the
claim requires a hit with confidence 0.8 — but `scrape_match_xg` checks
the cache through the memoized fixed-1800 s accessor, treats the entry as
a miss, and proceeds to a live scrape (confidence 1.0, with a
write-through cache write). -/
theorem C5_counterexample :
    (FBref.scrape_match_xg ⟨2000, ⟨[]⟩, some ⟨0, some [("home_xg", Val.num 1)]⟩,
      .page (some "u"), .page ⟨some (1.5, 1.0), none, none⟩, true,
      none, none, true⟩ 3).conf = some 1.0
    ∧ some (1.0 : ℚ) ≠ some (0.8 : ℚ)
    ∧ ((2000 : ℚ) - 0 < (get_ttl_seconds "match_stats" : ℚ)) := by
  refine ⟨?_, by norm_num, ?_⟩
  · norm_num [FBref.scrape_match_xg, get_cached_data, get_cached_data_raw,
      truthyPayload, save_to_cache, OpResult.conf]
  · rw [show get_ttl_seconds "match_stats" = 86400 from rfl]
    norm_num

/-- Claim C5 (amended): the TTL table maps odds to 600 s, injuries to
3600 s, weather to 10800 s, match_stats/team_form/advanced_stats to
86400 s and anything else to 1800 s, and the OddsPortal and PhysioRoom
operations use it for their first-tier cache check: an entry with age
strictly below the TTL and truthy content is a hit yielding confidence
0.8 with `scraped_at = now`; an entry at or past its TTL, or one that
fails to deserialize, is a miss.  The FBref and WhoScored operations do
not consult the table: their cache check goes through the memoized
`_get_cached_data`, whose validity bound is the fixed default 1800 s. -/
theorem C5_ttl_cache_behavior :
    (get_ttl_seconds "odds" = 600 ∧ get_ttl_seconds "injuries" = 3600
      ∧ get_ttl_seconds "weather" = 10800
      ∧ get_ttl_seconds "advanced_stats" = 86400
      ∧ get_ttl_seconds "match_stats" = 86400
      ∧ get_ttl_seconds "team_form" = 86400)
    ∧ (∀ dt : String, dt ≠ "odds" → dt ≠ "injuries" → dt ≠ "weather" →
        dt ≠ "advanced_stats" → dt ≠ "match_stats" → dt ≠ "team_form" →
        get_ttl_seconds dt = 1800)
    ∧ (∀ (e : OddsPortal.Env) (fid : ℤ) (f : CacheFile) (c : Payload),
        e.cacheFile = some f → f.content = some c → c ≠ [] →
        e.now - f.cached_at < (get_ttl_seconds "odds" : ℚ) →
        OddsPortal.scrape_fixture_odds e fid
          = ⟨false, some ⟨"oddsportal", "odds", some fid, none, c, e.now, 0.8⟩,
             0, 0, []⟩)
    ∧ (∀ (e : PhysioRoom.Env) (tid : ℤ) (tn : String) (f : CacheFile)
        (c : Payload),
        e.cacheFile = some f → f.content = some c → c ≠ [] →
        e.now - f.cached_at < (get_ttl_seconds "injuries" : ℚ) →
        PhysioRoom.scrape_team_injuries e tid tn
          = ⟨false, some ⟨"physioroom", "injuries", none, some tid, c, e.now, 0.8⟩,
             0, 0, []⟩)
    ∧ (∀ (f : CacheFile) (now : ℚ) (ttl : ℕ),
        ¬ (now - f.cached_at < (ttl : ℚ)) →
        get_cached_data_ttl (some f) now ttl = none)
    ∧ (∀ (t now : ℚ) (ttl : ℕ),
        get_cached_data_ttl (some ⟨t, none⟩) now ttl = none)
    ∧ (∀ (st : LruCache) (k : String) (f : Option CacheFile) (now : ℚ),
        st.entries.lookup k = none →
        (get_cached_data st k f now).1 = get_cached_data_raw f now)
    ∧ (∀ (f : CacheFile) (c : Payload) (now : ℚ), f.content = some c →
        now - f.cached_at < 1800 → get_cached_data_raw (some f) now = some c)
    ∧ (∀ (f : CacheFile) (c : Payload) (now : ℚ), f.content = some c →
        ¬ (now - f.cached_at < 1800) → get_cached_data_raw (some f) now = none)
    ∧ (∀ (e : FBref.XgEnv) (fid : ℤ) (c : Payload),
        truthyPayload (get_cached_data e.memo ("fbref_xg_" ++ toString fid)
          e.cacheFile e.now).1 = some c →
        FBref.scrape_match_xg e fid
          = ⟨false, some ⟨"fbref", "match_stats", some fid, none, c, e.now, 0.8⟩,
             0, 0, []⟩) := by
  refine ⟨⟨rfl, rfl, rfl, rfl, rfl, rfl⟩, ?_, ?_, ?_, ?_, ?_, ?_, ?_, ?_, ?_⟩
  · intro dt h1 h2 h3 h4 h5 h6
    unfold get_ttl_seconds
    rw [if_neg h1, if_neg h2, if_neg h3, if_neg h4, if_neg h5, if_neg h6]
  · intro e fid f c hf hc hne hlt
    simp only [OddsPortal.scrape_fixture_odds, get_cached_data_ttl, hf, hc,
      if_pos hlt, truthyPayload, if_neg hne]
  · intro e tid tn f c hf hc hne hlt
    simp only [PhysioRoom.scrape_team_injuries, get_cached_data_ttl, hf, hc,
      if_pos hlt, truthyPayload, if_neg hne]
  · intro f now ttl hge
    simp only [get_cached_data_ttl]
    split
    · rfl
    · rw [if_neg hge]
  · intro t now ttl
    rfl
  · intro st k f now hk
    simp only [get_cached_data, hk]
  · intro f c now hc hlt
    simp only [get_cached_data_raw, hc, if_pos hlt]
  · intro f c now hc hge
    simp only [get_cached_data_raw, hc, if_neg hge]
  · intro e fid c hcache
    simp only [FBref.scrape_match_xg, hcache]

/-- Witness for C5: a 550 s old odds entry (under the 600 s TTL) is
served from cache with confidence 0.8, and the stale-entry accessor
returns a miss at age 1800 s under the default bound. -/
theorem C5_witness :
    OddsPortal.scrape_fixture_odds
      ⟨650, some ⟨100, some [("home_open", .num 2)]⟩, .raised, .raised, true⟩ 1
      = ⟨false, some ⟨"oddsportal", "odds", some 1, none,
          [("home_open", .num 2)], 650, 0.8⟩, 0, 0, []⟩
    ∧ get_cached_data_raw (some ⟨0, some [("home_open", .num 2)]⟩) 1800
      = none := by
  have h := C5_ttl_cache_behavior
  constructor
  · exact h.2.2.1 ⟨650, some ⟨100, some [("home_open", .num 2)]⟩,
      .raised, .raised, true⟩ 1 ⟨100, some [("home_open", .num 2)]⟩
      [("home_open", .num 2)] rfl rfl (by decide)
      (by rw [show get_ttl_seconds "odds" = 600 from rfl]; norm_num)
  · exact h.2.2.2.2.2.2.2.2.1 ⟨0, some [("home_open", .num 2)]⟩
      [("home_open", .num 2)] 1800 rfl (by norm_num)

/-- Every record `scrape_fixture_odds` can return carries confidence 0.8
(cache), 0.9 (fresh) or 0.5 (static fallback). -/
theorem conf_mem_odds (e : OddsPortal.Env) (fid : ℤ) :
    (OddsPortal.scrape_fixture_odds e fid).conf = some 0.8
    ∨ (OddsPortal.scrape_fixture_odds e fid).conf = some 0.9
    ∨ (OddsPortal.scrape_fixture_odds e fid).conf = some 0.5 := by
  unfold OddsPortal.scrape_fixture_odds save_to_cache
  repeat' split
  all_goals simp [OpResult.conf, OddsPortal.fallback_odds_data]

/-- The xG fallback chain yields confidence 0.5 (durable store) or 0.3
(static default). -/
theorem conf_fallback_xg (memo : LruCache) (fbc : Option CacheFile)
    (api : Option Payload) (so : Bool) (now : ℚ) (fid : ℤ) :
    (FBref.get_fallback_xg_data memo fbc api so now fid).1.confidence = 0.5
    ∨ (FBref.get_fallback_xg_data memo fbc api so now fid).1.confidence
        = 0.3 := by
  simp only [FBref.get_fallback_xg_data]
  split <;> simp [FBref.default_xg_record]

/-- Every record `scrape_team_injuries` can return carries confidence
0.8 (cache), 0.9 (fresh, players found), 0.6 (fresh, none found) or 0.4
(static fallback). -/
theorem conf_mem_injuries (e : PhysioRoom.Env) (tid : ℤ) (tn : String) :
    (PhysioRoom.scrape_team_injuries e tid tn).conf = some 0.8
    ∨ (PhysioRoom.scrape_team_injuries e tid tn).conf = some 0.9
    ∨ (PhysioRoom.scrape_team_injuries e tid tn).conf = some 0.6
    ∨ (PhysioRoom.scrape_team_injuries e tid tn).conf = some 0.4 := by
  unfold PhysioRoom.scrape_team_injuries
  rcases hc : truthyPayload
      (get_cached_data_ttl e.cacheFile e.now (get_ttl_seconds "injuries"))
    with _ | c
  case some => simp [hc, OpResult.conf]
  case none =>
  simp only [hc]
  rcases hf : e.fetchSearch with _ | mu
  · simp [OpResult.conf, PhysioRoom.fallback_injuries]
  · rcases mu with _ | u
    · simp [OpResult.conf, PhysioRoom.fallback_injuries]
    · rcases hd : e.fetchDetail with _ | items
      · simp [OpResult.conf, PhysioRoom.fallback_injuries]
      · cases hs : e.saveOk
        · simp [save_to_cache, OpResult.conf, PhysioRoom.fallback_injuries]
        · by_cases hp :
            (items.filterMap PhysioRoom.parse_injury_item).isEmpty
          · simp [save_to_cache, OpResult.conf, hp]
          · simp [save_to_cache, OpResult.conf, hp]

/-- Every record `scrape_match_xg` can return carries confidence 0.8
(cache), 1.0 (fresh), 0.5 (durable store) or 0.3 (static default). -/
theorem conf_mem_xg (e : FBref.XgEnv) (fid : ℤ) :
    (FBref.scrape_match_xg e fid).conf = some 0.8
    ∨ (FBref.scrape_match_xg e fid).conf = some 1.0
    ∨ (FBref.scrape_match_xg e fid).conf = some 0.5
    ∨ (FBref.scrape_match_xg e fid).conf = some 0.3 := by
  unfold FBref.scrape_match_xg
  rcases hc : truthyPayload (get_cached_data e.memo
      ("fbref_xg_" ++ toString fid) e.cacheFile e.now).1 with _ | c
  case some => simp [hc, OpResult.conf]
  case none =>
  simp only [hc]
  have hfb := conf_fallback_xg
    (get_cached_data e.memo ("fbref_xg_" ++ toString fid) e.cacheFile
      e.now).2 e.fbCacheFile e.fbApi e.fbSaveOk e.now fid
  rcases hf : e.fetchSearch with _ | mu
  · rcases hfb with h | h <;> simp [OpResult.conf, h]
  · rcases mu with _ | u
    · rcases hfb with h | h <;> simp [OpResult.conf, h]
    · rcases hm : e.fetchMatch with _ | ext
      · rcases hfb with h | h <;> simp [OpResult.conf, h]
      · cases hs : e.saveOk
        · rcases hfb with h | h <;>
            simp [save_to_cache, OpResult.conf, h]
        · simp [save_to_cache, OpResult.conf]

/-- Every record `scrape_team_form` can return carries confidence 0.8
(cache), 1.0 (fresh) or 0.3 (static fallback). -/
theorem conf_mem_form (e : FBref.FormEnv) (tid : ℤ) :
    (FBref.scrape_team_form e tid).conf = some 0.8
    ∨ (FBref.scrape_team_form e tid).conf = some 1.0
    ∨ (FBref.scrape_team_form e tid).conf = some 0.3 := by
  unfold FBref.scrape_team_form
  rcases hc : truthyPayload (get_cached_data e.memo
      ("fbref_form_" ++ toString tid) e.cacheFile e.now).1 with _ | c
  case some => simp [hc, OpResult.conf]
  case none =>
  simp only [hc]
  rcases hf : e.fetchSearch with _ | mu
  · simp [OpResult.conf, FBref.get_fallback_form_data]
  · rcases mu with _ | u
    · simp [OpResult.conf, FBref.get_fallback_form_data]
    · rcases ht : e.fetchTeam with _ | ext
      · simp [OpResult.conf, FBref.get_fallback_form_data]
      · cases hs : e.saveOk
        · simp [save_to_cache, OpResult.conf, FBref.get_fallback_form_data]
        · simp [save_to_cache, OpResult.conf]

/-- Every record `scrape_team_ratings` can return carries confidence 0.8
(cache), 1.0 (fresh) or 0.3 (static fallback). -/
theorem conf_mem_ratings (e : WhoScored.RatingsEnv) (tid : ℤ) :
    (WhoScored.scrape_team_ratings e tid).conf = some 0.8
    ∨ (WhoScored.scrape_team_ratings e tid).conf = some 1.0
    ∨ (WhoScored.scrape_team_ratings e tid).conf = some 0.3 := by
  unfold WhoScored.scrape_team_ratings
  rcases hc : truthyPayload (get_cached_data e.memo
      ("whoscored_ratings_" ++ toString tid) e.cacheFile e.now).1 with _ | c
  case some => simp [hc, OpResult.conf]
  case none =>
  simp only [hc]
  rcases hf : e.fetchSearch with _ | mu
  · simp [OpResult.conf, WhoScored.get_fallback_ratings_data]
  · rcases mu with _ | u
    · simp [OpResult.conf, WhoScored.get_fallback_ratings_data]
    · rcases ht : e.fetchTeam with _ | ext
      · simp [OpResult.conf, WhoScored.get_fallback_ratings_data]
      · cases hs : e.saveOk
        · simp [save_to_cache, OpResult.conf,
            WhoScored.get_fallback_ratings_data]
        · simp [save_to_cache, OpResult.conf]

/-- Every record `scrape_match_insights` can return carries confidence
0.8 (cache), 0.7 (fresh) or 0.3 (static fallback). -/
theorem conf_mem_insights (e : WhoScored.InsightsEnv) (fid : ℤ)
    (ht aw : String) :
    (WhoScored.scrape_match_insights e fid ht aw).conf = some 0.8
    ∨ (WhoScored.scrape_match_insights e fid ht aw).conf = some 0.7
    ∨ (WhoScored.scrape_match_insights e fid ht aw).conf = some 0.3 := by
  unfold WhoScored.scrape_match_insights
  rcases hc : truthyPayload (get_cached_data e.memo
      ("whoscored_match_" ++ toString fid) e.cacheFile e.now).1 with _ | c
  case some => simp [hc, OpResult.conf]
  case none =>
  simp only [hc]
  rcases hl : e.fetchLive with _ | found
  · simp [OpResult.conf, WhoScored.get_fallback_match_data]
  · rcases found with _ | ext
    · simp [OpResult.conf, WhoScored.get_fallback_match_data]
    · cases hs : e.saveOk
      · simp [save_to_cache, OpResult.conf,
          WhoScored.get_fallback_match_data]
      · simp [save_to_cache, OpResult.conf]

/-- Claim C3 counterexample: for WhoScored match insights a cache-served
record has confidence 0.8 while a freshly scraped one has confidence 0.7,
so a cache-served record's confidence is not ≤ every fresh scrape's. -/
theorem C3_counterexample :
    (WhoScored.scrape_match_insights
      ⟨0, ⟨[]⟩, some ⟨0, some [("x", Val.num 1)]⟩, .raised, true⟩
      5 "a" "b").conf = some 0.8
    ∧ (WhoScored.scrape_match_insights
      ⟨0, ⟨[]⟩, none, .page (some ⟨[]⟩), true⟩ 5 "a" "b").conf = some 0.7
    ∧ ¬ ((0.8 : ℚ) ≤ (0.7 : ℚ)) := by
  refine ⟨?_, ?_, by norm_num⟩
  · norm_num [WhoScored.scrape_match_insights, get_cached_data,
      get_cached_data_raw, truthyPayload, OpResult.conf]
  · norm_num [WhoScored.scrape_match_insights, get_cached_data,
      get_cached_data_raw, truthyPayload, save_to_cache, OpResult.conf]

/-- Claim C3 (amended): each operation's possible confidences are
exactly its tier constants, and the tiers order as
static default (0.3/0.4/0.5) ≤ durable-store fallback (0.5) ≤
cache-served (0.8) ≤ full-extraction fresh scrape (0.9/1.0) — except
that heuristic fresh records fall below the cache tier: a fresh
WhoScored match-insights record has confidence 0.7 < 0.8 and a fresh
PhysioRoom record with zero players found has 0.6 < 0.8. -/
theorem C3_confidence_tier_ordering :
    (∀ (e : OddsPortal.Env) (fid : ℤ),
      (OddsPortal.scrape_fixture_odds e fid).conf = some 0.8
      ∨ (OddsPortal.scrape_fixture_odds e fid).conf = some 0.9
      ∨ (OddsPortal.scrape_fixture_odds e fid).conf = some 0.5)
    ∧ (∀ (e : PhysioRoom.Env) (tid : ℤ) (tn : String),
      (PhysioRoom.scrape_team_injuries e tid tn).conf = some 0.8
      ∨ (PhysioRoom.scrape_team_injuries e tid tn).conf = some 0.9
      ∨ (PhysioRoom.scrape_team_injuries e tid tn).conf = some 0.6
      ∨ (PhysioRoom.scrape_team_injuries e tid tn).conf = some 0.4)
    ∧ (∀ (e : FBref.XgEnv) (fid : ℤ),
      (FBref.scrape_match_xg e fid).conf = some 0.8
      ∨ (FBref.scrape_match_xg e fid).conf = some 1.0
      ∨ (FBref.scrape_match_xg e fid).conf = some 0.5
      ∨ (FBref.scrape_match_xg e fid).conf = some 0.3)
    ∧ (∀ (e : FBref.FormEnv) (tid : ℤ),
      (FBref.scrape_team_form e tid).conf = some 0.8
      ∨ (FBref.scrape_team_form e tid).conf = some 1.0
      ∨ (FBref.scrape_team_form e tid).conf = some 0.3)
    ∧ (∀ (e : WhoScored.RatingsEnv) (tid : ℤ),
      (WhoScored.scrape_team_ratings e tid).conf = some 0.8
      ∨ (WhoScored.scrape_team_ratings e tid).conf = some 1.0
      ∨ (WhoScored.scrape_team_ratings e tid).conf = some 0.3)
    ∧ (∀ (e : WhoScored.InsightsEnv) (fid : ℤ) (ht aw : String),
      (WhoScored.scrape_match_insights e fid ht aw).conf = some 0.8
      ∨ (WhoScored.scrape_match_insights e fid ht aw).conf = some 0.7
      ∨ (WhoScored.scrape_match_insights e fid ht aw).conf = some 0.3)
    ∧ ((0.3 : ℚ) ≤ 0.4 ∧ (0.4 : ℚ) ≤ 0.5 ∧ (0.5 : ℚ) ≤ 0.8
       ∧ (0.8 : ℚ) ≤ 0.9 ∧ (0.9 : ℚ) ≤ 1.0
       ∧ (0.6 : ℚ) < 0.8 ∧ (0.7 : ℚ) < 0.8) :=
  ⟨conf_mem_odds, conf_mem_injuries, conf_mem_xg, conf_mem_form,
   conf_mem_ratings, conf_mem_insights, by norm_num⟩

/-- A memoized key is served from the memo — the file and clock arguments
are ignored — and the key stays memoized with the same value. -/
theorem get_cached_data_hit (st : LruCache) (k : String) (v : Option Payload)
    (f : Option CacheFile) (t : ℚ) (h : st.entries.lookup k = some v) :
    (get_cached_data st k f t).1 = v
    ∧ ((get_cached_data st k f t).2).entries.lookup k = some v := by
  constructor
  · simp [get_cached_data, h]
  · simp [get_cached_data, h, List.lookup]

/-- A fresh key's first read computes from the file and memoizes the
result; no eviction occurs while the memo is under its 1000-entry bound. -/
theorem get_cached_data_first (st : LruCache) (k : String)
    (f : Option CacheFile) (t : ℚ) (h : st.entries.lookup k = none)
    (hlen : st.entries.length < 1000) :
    (get_cached_data st k f t).1 = get_cached_data_raw f t
    ∧ ((get_cached_data st k f t).2).entries.lookup k
        = some (get_cached_data_raw f t) := by
  have hno : ¬ ((k, get_cached_data_raw f t) :: st.entries).length > 1000 := by
    simp only [List.length_cons]
    omega
  constructor
  · simp [get_cached_data, h]
  · simp only [get_cached_data, h]
    rw [if_neg hno]
    simp [List.lookup]

/-- Once a key is memoized with value `v`, every later `_get_cached_data`
call for it returns `v`, whatever the file contents or clock say. -/
theorem run_cached_reads_memoized (k : String) (v : Option Payload)
    (probes : List (Option CacheFile × ℚ)) :
    ∀ (st : LruCache), st.entries.lookup k = some v →
    (run_cached_reads st k probes).1 = probes.map (fun _ => v) := by
  induction probes with
  | nil => intro st _; rfl
  | cons p rest ih =>
    intro st h
    rcases p with ⟨f, t⟩
    have hh := get_cached_data_hit st k v f t h
    simp only [run_cached_reads, List.map]
    rw [hh.1, ih _ hh.2]

/-- Claim C10: within one scraper instance, after the first
`_get_cached_data(cache_key)` call every later call for the same key
returns exactly the first call's value (the `functools.lru_cache` memo),
regardless of how the underlying cache file or the clock have changed —
TTL expiry and cache updates are not re-checked — provided the memo has
not yet reached its 1000-key bound. -/
theorem C10_memoized_reads (st : LruCache) (k : String)
    (f0 : Option CacheFile) (t0 : ℚ)
    (probes : List (Option CacheFile × ℚ))
    (hk : st.entries.lookup k = none) (hlen : st.entries.length < 1000) :
    (run_cached_reads (get_cached_data st k f0 t0).2 k probes).1
      = probes.map (fun _ => (get_cached_data st k f0 t0).1) := by
  have h1 := get_cached_data_first st k f0 t0 hk hlen
  rw [h1.1, run_cached_reads_memoized k (get_cached_data_raw f0 t0) probes _
    h1.2]

/-- Witness for C10: a key first read at time 0 keeps returning the
payload read then, although the file is overwritten and the 30-minute
bound has long elapsed by the later reads. -/
theorem C10_witness :
    (run_cached_reads
      (get_cached_data (LruCache.mk []) "k1"
        (some (⟨0, some [("a", Val.num 1)]⟩ : CacheFile)) 0).2
      "k1" [(some (⟨0, some [("a", Val.num 2)]⟩ : CacheFile), 100000), (none, 200000)]).1
    = [(some (⟨0, some [("a", Val.num 2)]⟩ : CacheFile), (100000 : ℚ)), (none, 200000)].map
        (fun _ =>
          (get_cached_data (LruCache.mk []) "k1"
            (some (⟨0, some [("a", Val.num 1)]⟩ : CacheFile)) 0).1) :=
  C10_memoized_reads (LruCache.mk []) "k1"
    (some (⟨0, some [("a", Val.num 1)]⟩ : CacheFile)) 0
    [(some (⟨0, some [("a", Val.num 2)]⟩ : CacheFile), 100000), (none, 200000)]
    rfl (by norm_num)
